import Mathlib

/-!
Shallow embedding of the radical.entk Task data model
(src/src/radical/entk/task/task.py) and of the spec-modelled Task Manager
lifecycle surface. Setters are embedded as pure functions
`Task → PyVal → Task × Option EntkErr`: the returned task is the object
state after the call (Python mutations made before a raise persist, so the
state is threaded even on the error path) and the second component is the
exception raised, if any.
-/

namespace entk

/-- Modelled from the spec: the states module (radical.entk.states) is not
under src; task.py only needs that the state constants are strings, so each
is embedded as its spec name. INITIAL is the construction state. -/
def INITIAL : String := "INITIAL"

/-- Modelled from the spec: state constant SCHEDULING. -/
def SCHEDULING : String := "SCHEDULING"

/-- Modelled from the spec: state constant SCHEDULED. -/
def SCHEDULED : String := "SCHEDULED"

/-- Modelled from the spec: state constant SUBMITTING. -/
def SUBMITTING : String := "SUBMITTING"

/-- Modelled from the spec: state constant SUBMITTED. -/
def SUBMITTED : String := "SUBMITTED"

/-- Modelled from the spec: state constant EXECUTING. -/
def EXECUTING : String := "EXECUTING"

/-- Modelled from the spec: terminal state constant DONE. -/
def DONE : String := "DONE"

/-- Modelled from the spec: terminal state constant FAILED. -/
def FAILED : String := "FAILED"

/-- Modelled from the spec: terminal state constant CANCELED. -/
def CANCELED : String := "CANCELED"

/-- Exceptions raised by task.py. typeErr, valueErr and missingErr embed
radical.entk.exceptions TypeError, ValueError and MissingError (the
exceptions module is not under src; only which class is raised where
matters). invalidTransition embeds the spec's InvalidTransition, included
so that claims about it are statable. -/
inductive EntkErr
  | typeErr
  | valueErr
  | missingErr
  | invalidTransition
deriving DecidableEq

/-- A Python value as it can appear inside a cpu_reqs/gpu_reqs dictionary:
None, an int, a str, a bool (in Python `type(True)` is `bool`, which is not
in `[type(None), int]`, so the reqs setters reject it), or anything else. -/
inductive RVal
  | rnone
  | rint (n : Int)
  | rstr (s : String)
  | rbool (b : Bool)
  | rother
deriving DecidableEq

/-- The stored shape of Task._cpu_reqs / Task._gpu_reqs: a dict over the four
fixed keys (the setters overwrite each key with `val.get(key)`). -/
structure Reqs where
  processes : RVal
  process_type : RVal
  threads_per_process : RVal
  thread_type : RVal
deriving DecidableEq

/-- A Python dict passed to the cpu_reqs/gpu_reqs setters. An `Option RVal`
field is `none` when the key is absent from the dict. `hasExtraKey` records
whether the dict holds any key outside the four expected ones, i.e. whether
`set(val.keys()) <= expected_keys` fails. -/
structure ReqDict where
  processes : Option RVal
  process_type : Option RVal
  threads_per_process : Option RVal
  thread_type : Option RVal
  hasExtraKey : Bool
deriving DecidableEq

/-- Python `val.get(key)`: the stored value, or None when the key is absent. -/
def rget : Option RVal → RVal
  | some v => v
  | none => RVal.rnone

/-- Python `type(x) in [type(None), int]` (note: True has type bool, rejected). -/
def isIntOrNone : RVal → Bool
  | RVal.rnone => true
  | RVal.rint _ => true
  | _ => false

/-- Python `x in [None, 'MPI']`. -/
def procTypeOk : RVal → Bool
  | RVal.rnone => true
  | RVal.rstr s => s == "MPI"
  | _ => false

/-- Python `x in [None, 'OpenMP']`. -/
def threadTypeOk : RVal → Bool
  | RVal.rnone => true
  | RVal.rstr s => s == "OpenMP"
  | _ => false

/-- A Python value as it can be assigned to a Task attribute. List payloads
are kept as lists of strings (every claim treats list elements opaquely). -/
inductive PyVal
  | pynone
  | pybool (b : Bool)
  | pyint (n : Int)
  | pystr (s : String)
  | pylist (l : List String)
  | pydict (d : ReqDict)
  | pyother
deriving DecidableEq

/-- Python `isinstance(v, dict)`. -/
def isDict : PyVal → Bool
  | PyVal.pydict _ => true
  | _ => false

/-- Python `isinstance(v, str)`. -/
def isStr : PyVal → Bool
  | PyVal.pystr _ => true
  | _ => false

/-- Python `isinstance(v, list) or isinstance(v, str)`. -/
def isListOrStr : PyVal → Bool
  | PyVal.pylist _ => true
  | PyVal.pystr _ => true
  | _ => false

/-- The Task object of task.py: one field per attribute set in __init__. -/
structure Task where
  uid : String
  name : String
  state : String
  pre_exec : List String
  executable : List String
  arguments : List String
  post_exec : List String
  cpu_reqs : Reqs
  gpu_reqs : Reqs
  upload_input_data : List String
  copy_input_data : List String
  link_input_data : List String
  copy_output_data : List String
  download_output_data : List String
  path : Option String
  exit_code : Option Int
  state_history : List String
  p_stage : Option String
  p_pipeline : Option String
deriving DecidableEq

/-- Task.__init__ (task.py lines 20-62). The uid comes from
ru.generate_id, an external collaborator, so it is a parameter here. -/
def Task.init (uid : String) : Task :=
  { uid := uid
    name := ""
    state := INITIAL
    pre_exec := []
    executable := []
    arguments := []
    post_exec := []
    cpu_reqs := ⟨RVal.rint 1, RVal.rnone, RVal.rint 1, RVal.rnone⟩
    gpu_reqs := ⟨RVal.rint 0, RVal.rnone, RVal.rint 0, RVal.rnone⟩
    upload_input_data := []
    copy_input_data := []
    link_input_data := []
    copy_output_data := []
    download_output_data := []
    path := none
    exit_code := none
    state_history := [INITIAL]
    p_stage := none
    p_pipeline := none }

/-- The uid setter (task.py lines 361-366): any string is stored, anything
else raises TypeError. -/
def set_uid (t : Task) (v : PyVal) : Task × Option EntkErr :=
  match v with
  | PyVal.pystr s => ({ t with uid := s }, none)
  | _ => (t, some EntkErr.typeErr)

/-- The state setter (task.py lines 375-381): any string is stored and
appended to _state_history; anything else raises TypeError. No transition
table is consulted. -/
def set_state (t : Task) (v : PyVal) : Task × Option EntkErr :=
  match v with
  | PyVal.pystr s =>
      ({ t with state := s, state_history := t.state_history ++ [s] }, none)
  | _ => (t, some EntkErr.typeErr)

/-- The executable setter (task.py lines 391-398): a list is stored as is, a
string s is stored as [s], anything else raises TypeError. -/
def set_executable (t : Task) (v : PyVal) : Task × Option EntkErr :=
  match v with
  | PyVal.pylist l => ({ t with executable := l }, none)
  | PyVal.pystr s => ({ t with executable := [s] }, none)
  | _ => (t, some EntkErr.typeErr)

/-- The exit_code setter (task.py lines 548-553): `isinstance(val, int)`; in
Python a bool is an instance of int, so True/False store 1/0. -/
def set_exit_code (t : Task) (v : PyVal) : Task × Option EntkErr :=
  match v with
  | PyVal.pyint n => ({ t with exit_code := some n }, none)
  | PyVal.pybool b => ({ t with exit_code := some (if b then 1 else 0) }, none)
  | _ => (t, some EntkErr.typeErr)

/-- The path setter (task.py lines 556-561). -/
def set_path (t : Task) (v : PyVal) : Task × Option EntkErr :=
  match v with
  | PyVal.pystr s => ({ t with path := some s }, none)
  | _ => (t, some EntkErr.typeErr)

/-- The parent_stage setter (task.py lines 563-568). -/
def set_parent_stage (t : Task) (v : PyVal) : Task × Option EntkErr :=
  match v with
  | PyVal.pystr s => ({ t with p_stage := some s }, none)
  | _ => (t, some EntkErr.typeErr)

/-- The parent_pipeline setter (task.py lines 570-575). -/
def set_parent_pipeline (t : Task) (v : PyVal) : Task × Option EntkErr :=
  match v with
  | PyVal.pystr s => ({ t with p_pipeline := some s }, none)
  | _ => (t, some EntkErr.typeErr)

/-- The cpu_reqs setter (task.py lines 415-461): reject non-dicts with
TypeError; reject dicts holding a key outside the four expected ones with
MissingError; then check and store the four `val.get` values one at a time
(each mutation happens before the next check, so a mid-way raise leaves the
earlier fields already overwritten). -/
def set_cpu_reqs (t : Task) (v : PyVal) : Task × Option EntkErr :=
  match v with
  | PyVal.pydict d =>
      if d.hasExtraKey then (t, some EntkErr.missingErr)
      else
        let p := rget d.processes
        if isIntOrNone p then
          let t1 := { t with cpu_reqs := { t.cpu_reqs with processes := p } }
          let pt := rget d.process_type
          if procTypeOk pt then
            let t2 := { t1 with cpu_reqs := { t1.cpu_reqs with process_type := pt } }
            let tp := rget d.threads_per_process
            if isIntOrNone tp then
              let t3 := { t2 with cpu_reqs := { t2.cpu_reqs with threads_per_process := tp } }
              let tt := rget d.thread_type
              if threadTypeOk tt then
                ({ t3 with cpu_reqs := { t3.cpu_reqs with thread_type := tt } }, none)
              else (t3, some EntkErr.valueErr)
            else (t2, some EntkErr.typeErr)
          else (t1, some EntkErr.valueErr)
        else (t, some EntkErr.typeErr)
  | _ => (t, some EntkErr.typeErr)

/-- The gpu_reqs setter (task.py lines 464-510): same logic as cpu_reqs on
the _gpu_reqs field. -/
def set_gpu_reqs (t : Task) (v : PyVal) : Task × Option EntkErr :=
  match v with
  | PyVal.pydict d =>
      if d.hasExtraKey then (t, some EntkErr.missingErr)
      else
        let p := rget d.processes
        if isIntOrNone p then
          let t1 := { t with gpu_reqs := { t.gpu_reqs with processes := p } }
          let pt := rget d.process_type
          if procTypeOk pt then
            let t2 := { t1 with gpu_reqs := { t1.gpu_reqs with process_type := pt } }
            let tp := rget d.threads_per_process
            if isIntOrNone tp then
              let t3 := { t2 with gpu_reqs := { t2.gpu_reqs with threads_per_process := tp } }
              let tt := rget d.thread_type
              if threadTypeOk tt then
                ({ t3 with gpu_reqs := { t3.gpu_reqs with thread_type := tt } }, none)
              else (t3, some EntkErr.valueErr)
            else (t2, some EntkErr.typeErr)
          else (t1, some EntkErr.valueErr)
        else (t, some EntkErr.typeErr)
  | _ => (t, some EntkErr.typeErr)

/-- The combined per-field validity check of the reqs setters: no key
outside the four expected ones, processes and threads_per_process int or
None, process_type in {None, MPI}, thread_type in {None, OpenMP}. -/
def dictOk (d : ReqDict) : Bool :=
  !d.hasExtraKey
    && isIntOrNone (rget d.processes)
    && procTypeOk (rget d.process_type)
    && isIntOrNone (rget d.threads_per_process)
    && threadTypeOk (rget d.thread_type)

/-- The reqs record a successful setter call stores: `val.get` of each key
(None for an absent key). -/
def reqsOf (d : ReqDict) : Reqs :=
  ⟨rget d.processes, rget d.process_type,
   rget d.threads_per_process, rget d.thread_type⟩

/-- Task._validate (task.py lines 757-772): raise ValueError when the state
is not INITIAL (the source compares with `is not` against the module
constant; embedded as string inequality), then MissingError when the
executable list is empty (`not self._executable`). -/
def validate (t : Task) : Option EntkErr :=
  if t.state ≠ INITIAL then some EntkErr.valueErr
  else if t.executable = [] then some EntkErr.missingErr
  else none

/-- The dictionary produced by Task.to_dict (task.py lines 583-617): every
key is present, with exactly the types the Task fields carry. from_dict
below is embedded on this shape, which is the domain of the round-trip
claims. -/
structure TaskDict where
  uid : String
  name : String
  state : String
  state_history : List String
  pre_exec : List String
  executable : List String
  arguments : List String
  post_exec : List String
  cpu_reqs : Reqs
  gpu_reqs : Reqs
  upload_input_data : List String
  copy_input_data : List String
  link_input_data : List String
  copy_output_data : List String
  download_output_data : List String
  exit_code : Option Int
  path : Option String
  parent_stage : Option String
  parent_pipeline : Option String
deriving DecidableEq

/-- Task.to_dict (task.py lines 583-617). -/
def to_dict (t : Task) : TaskDict :=
  { uid := t.uid
    name := t.name
    state := t.state
    state_history := t.state_history
    pre_exec := t.pre_exec
    executable := t.executable
    arguments := t.arguments
    post_exec := t.post_exec
    cpu_reqs := t.cpu_reqs
    gpu_reqs := t.gpu_reqs
    upload_input_data := t.upload_input_data
    copy_input_data := t.copy_input_data
    link_input_data := t.link_input_data
    copy_output_data := t.copy_output_data
    download_output_data := t.download_output_data
    exit_code := t.exit_code
    path := t.path
    parent_stage := t.p_stage
    parent_pipeline := t.p_pipeline }

/-- Task.from_dict (task.py lines 621-751) on a to_dict-shaped dictionary,
mutating the receiver in place. Each isinstance check resolves by the field
type. exit_code and path sit behind a Python truthiness guard
(`if d[key]:`), so the value 0 and the empty string are skipped, leaving
the receiver's old value. parent_stage / parent_pipeline of None fail the
`isinstance(.., str)` check and raise TypeError, keeping the mutations made
up to that point. -/
def from_dict (t : Task) (d : TaskDict) : Task × Option EntkErr :=
  let t1 :=
    { t with
      uid := d.uid
      name := d.name
      state := d.state
      state_history := d.state_history
      pre_exec := d.pre_exec
      executable := d.executable
      arguments := d.arguments
      post_exec := d.post_exec
      cpu_reqs := d.cpu_reqs
      gpu_reqs := d.gpu_reqs
      upload_input_data := d.upload_input_data
      copy_input_data := d.copy_input_data
      link_input_data := d.link_input_data
      copy_output_data := d.copy_output_data
      download_output_data := d.download_output_data }
  let t2 :=
    match d.exit_code with
    | some n => if n = 0 then t1 else { t1 with exit_code := some n }
    | none => t1
  let t3 :=
    match d.path with
    | some s => if s = "" then t2 else { t2 with path := some s }
    | none => t2
  match d.parent_stage with
  | none => (t3, some EntkErr.typeErr)
  | some s =>
      let t4 := { t3 with p_stage := some s }
      match d.parent_pipeline with
      | none => (t4, some EntkErr.typeErr)
      | some p => ({ t4 with p_pipeline := some p }, none)

/-- Modelled from the spec: the Task Manager class itself
(radical.entk.appman) is not under src, only its test is. Spec 4.3 and 6:
check_alive returns whether the consume/poll loops are currently running;
start_manager starts them; end_manager signals them to exit and joins them. -/
structure TaskManager where
  alive : Bool
deriving DecidableEq

/-- Modelled from the spec: a freshly constructed Task Manager whose loops
have not been started. -/
def newTaskManager : TaskManager := ⟨false⟩

/-- Modelled from the spec: start_manager begins the consume/poll loops. -/
def start_manager (m : TaskManager) : TaskManager := { m with alive := true }

/-- Modelled from the spec: end_manager stops and joins the loops. -/
def end_manager (m : TaskManager) : TaskManager := { m with alive := false }

/-- Modelled from the spec: check_alive reports whether the loops run. -/
def check_alive (m : TaskManager) : Bool := m.alive

end entk

namespace entk

theorem set_cpu_reqs_ok (t : Task) (d : ReqDict) (h : dictOk d = true) :
    set_cpu_reqs t (PyVal.pydict d) = ({ t with cpu_reqs := reqsOf d }, none) := by
  simp only [dictOk, Bool.and_eq_true, Bool.not_eq_true'] at h
  obtain ⟨⟨⟨⟨h1, h2⟩, h3⟩, h4⟩, h5⟩ := h
  simp [set_cpu_reqs, reqsOf, h1, h2, h3, h4, h5]

theorem set_gpu_reqs_ok (t : Task) (d : ReqDict) (h : dictOk d = true) :
    set_gpu_reqs t (PyVal.pydict d) = ({ t with gpu_reqs := reqsOf d }, none) := by
  simp only [dictOk, Bool.and_eq_true, Bool.not_eq_true'] at h
  obtain ⟨⟨⟨⟨h1, h2⟩, h3⟩, h4⟩, h5⟩ := h
  simp [set_gpu_reqs, reqsOf, h1, h2, h3, h4, h5]

theorem set_cpu_reqs_none_iff (t : Task) (d : ReqDict) :
    (set_cpu_reqs t (PyVal.pydict d)).2 = none ↔ dictOk d = true := by
  cases h1 : d.hasExtraKey <;> cases h2 : isIntOrNone (rget d.processes) <;>
  cases h3 : procTypeOk (rget d.process_type) <;>
  cases h4 : isIntOrNone (rget d.threads_per_process) <;>
  cases h5 : threadTypeOk (rget d.thread_type) <;>
  simp [set_cpu_reqs, dictOk, h1, h2, h3, h4, h5]

theorem set_gpu_reqs_none_iff (t : Task) (d : ReqDict) :
    (set_gpu_reqs t (PyVal.pydict d)).2 = none ↔ dictOk d = true := by
  cases h1 : d.hasExtraKey <;> cases h2 : isIntOrNone (rget d.processes) <;>
  cases h3 : procTypeOk (rget d.process_type) <;>
  cases h4 : isIntOrNone (rget d.threads_per_process) <;>
  cases h5 : threadTypeOk (rget d.thread_type) <;>
  simp [set_gpu_reqs, dictOk, h1, h2, h3, h4, h5]

theorem set_cpu_reqs_nondict (t : Task) (v : PyVal) (h : isDict v = false) :
    set_cpu_reqs t v = (t, some EntkErr.typeErr) := by
  cases v <;> first | rfl | simp [isDict] at h

theorem set_gpu_reqs_nondict (t : Task) (v : PyVal) (h : isDict v = false) :
    set_gpu_reqs t v = (t, some EntkErr.typeErr) := by
  cases v <;> first | rfl | simp [isDict] at h

theorem set_cpu_reqs_missing_iff (t : Task) (v : PyVal) :
    (set_cpu_reqs t v).2 = some EntkErr.missingErr ↔
      ∃ d, v = PyVal.pydict d ∧ d.hasExtraKey = true := by
  cases v <;> try simp [set_cpu_reqs]
  case pydict d =>
    cases h1 : d.hasExtraKey <;> cases h2 : isIntOrNone (rget d.processes) <;>
    cases h3 : procTypeOk (rget d.process_type) <;>
    cases h4 : isIntOrNone (rget d.threads_per_process) <;>
    cases h5 : threadTypeOk (rget d.thread_type) <;>
    simp [set_cpu_reqs, h1, h2, h3, h4, h5]

theorem set_gpu_reqs_missing_iff (t : Task) (v : PyVal) :
    (set_gpu_reqs t v).2 = some EntkErr.missingErr ↔
      ∃ d, v = PyVal.pydict d ∧ d.hasExtraKey = true := by
  cases v <;> try simp [set_gpu_reqs]
  case pydict d =>
    cases h1 : d.hasExtraKey <;> cases h2 : isIntOrNone (rget d.processes) <;>
    cases h3 : procTypeOk (rget d.process_type) <;>
    cases h4 : isIntOrNone (rget d.threads_per_process) <;>
    cases h5 : threadTypeOk (rget d.thread_type) <;>
    simp [set_gpu_reqs, h1, h2, h3, h4, h5]

end entk

namespace entk

/-- Claim C1 counterexample: a Task driven to the terminal state DONE
accepts a further state assignment to INITIAL with no error (in particular
no InvalidTransition), and the state_history gains an entry after the
terminal entry — both contradicting the claim at this concrete input. -/
def tC1 : Task := (set_state (Task.init "task.c1") (PyVal.pystr DONE)).1

/-- Claim C1 (counterexample): at the concrete task tC1 (state DONE), the
assignment of INITIAL succeeds instead of failing with InvalidTransition,
and an entry follows a terminal entry in state_history. -/
theorem c1_counterexample :
    tC1.state = DONE ∧
    (set_state tC1 (PyVal.pystr INITIAL)).2 = none ∧
    (set_state tC1 (PyVal.pystr INITIAL)).1.state = INITIAL ∧
    (set_state tC1 (PyVal.pystr INITIAL)).1.state_history = [INITIAL, DONE, INITIAL] :=
  ⟨rfl, rfl, rfl, rfl⟩

/-- Claim C1 (amended): the state setter performs no transition validation:
every string value is accepted from every current state (terminal states
included) and appended to state_history, and a state assignment never
fails with InvalidTransition — the only failure is TypeError on a
non-string value. -/
theorem c1_no_transition_check : ∀ (t : Task) (s : String) (v : PyVal),
    (set_state t (PyVal.pystr s)).2 = none ∧
    (set_state t (PyVal.pystr s)).1.state = s ∧
    (set_state t (PyVal.pystr s)).1.state_history = t.state_history ++ [s] ∧
    ((set_state t v).2 = none ∨ (set_state t v).2 = some EntkErr.typeErr) := by
  intro t s v
  refine ⟨rfl, rfl, rfl, ?_⟩
  cases v <;> simp [set_state]

/-- Claim C2 (code bug): the concrete failing input — a Task holding
exit_code 0 (set through the exit_code setter, which accepts the int 0)
and an empty path, with parent references present. -/
def tC2 : Task :=
  let t0 := Task.init "task.c2"
  let t1 := (set_executable t0 (PyVal.pystr "true")).1
  let t2 := (set_exit_code t1 (PyVal.pyint 0)).1
  let t3 := (set_path t2 (PyVal.pystr "")).1
  let t4 := (set_parent_stage t3 (PyVal.pystr "stage.c2")).1
  (set_parent_pipeline t4 (PyVal.pystr "pipe.c2")).1

/-- Claim C2 (code bug, evaluated at the failing input): from_dict guards
exit_code and path behind Python truthiness, so to_dict/from_dict silently
turns an exit_code of 0 and an empty path back into None instead of
round-tripping them, while raising no error. -/
theorem c2_roundtrip_drops_falsy :
    tC2.exit_code = some 0 ∧
    tC2.path = some "" ∧
    (from_dict (Task.init "task.dup") (to_dict tC2)).2 = none ∧
    (from_dict (Task.init "task.dup") (to_dict tC2)).1.exit_code = none ∧
    (from_dict (Task.init "task.dup") (to_dict tC2)).1.path = none :=
  ⟨rfl, rfl, rfl, rfl, rfl⟩

/-- Claim C3: validate fails exactly when the state is not INITIAL or the
executable list is empty, and succeeds (raising nothing) when the state is
INITIAL and the executable is non-empty. -/
theorem c3_validate_iff : ∀ t : Task,
    ((validate t).isSome ↔ (t.state ≠ INITIAL ∨ t.executable = [])) ∧
    (t.state = INITIAL → t.executable ≠ [] → validate t = none) := by
  intro t
  constructor
  · by_cases h1 : t.state = INITIAL <;> by_cases h2 : t.executable = [] <;>
      simp [validate, h1, h2]
  · intro h1 h2
    simp [validate, h1, h2]

/-- Claim C3 witness: a fresh task given a non-empty executable validates
without error. -/
theorem c3_witness : validate { Task.init "task.w3" with executable := ["echo"] } = none :=
  (c3_validate_iff { Task.init "task.w3" with executable := ["echo"] }).2 rfl (by decide)

/-- Claim C4: a successful state assignment appends exactly one entry, the
new history is the old one followed by the new state (so no earlier entry
is removed, rewritten or reordered, and the state equals the last entry);
a failed assignment leaves the task unchanged. -/
theorem c4_state_history_append : ∀ (t : Task) (v : PyVal),
    ((set_state t v).2 = none →
      (set_state t v).1.state_history
          = t.state_history ++ [(set_state t v).1.state] ∧
      (set_state t v).1.state_history.length = t.state_history.length + 1) ∧
    ((set_state t v).2 ≠ none → (set_state t v).1 = t) := by
  intro t v
  cases v <;> simp [set_state]

/-- Claim C4 witness: the append law evaluated on a fresh task receiving
SCHEDULING. -/
theorem c4_witness :
    (set_state (Task.init "task.w4") (PyVal.pystr SCHEDULING)).1.state_history
      = (Task.init "task.w4").state_history
          ++ [(set_state (Task.init "task.w4") (PyVal.pystr SCHEDULING)).1.state] :=
  ((c4_state_history_append (Task.init "task.w4") (PyVal.pystr SCHEDULING)).1 rfl).1

/-- Claim C5: a freshly constructed Task is in state INITIAL with history
[INITIAL], and its exit_code and path are absent (None); moreover state
assignments never touch exit_code or path, so both stay absent under every
sequence of state transitions until their own setters are called (which
the spec's Task Manager does at terminal/scheduled time). -/
theorem c5_fresh_task : ∀ (uid : String) (t : Task) (v : PyVal),
    (Task.init uid).state = INITIAL ∧
    (Task.init uid).state_history = [INITIAL] ∧
    (Task.init uid).exit_code = none ∧
    (Task.init uid).path = none ∧
    (set_state t v).1.exit_code = t.exit_code ∧
    (set_state t v).1.path = t.path := by
  intro uid t v
  refine ⟨rfl, rfl, rfl, rfl, ?_, ?_⟩ <;> cases v <;> rfl

/-- Claim C6: assigning cpu_reqs or gpu_reqs raises exactly when the value
is not a dict over the four expected keys (TypeError / MissingError) or
some field value fails its check (processes and threads_per_process must
be int or None, process_type in {None, MPI}, thread_type in
{None, OpenMP}); a dict passing all checks is accepted and its values are
stored. -/
theorem c6_reqs_validated : ∀ (t : Task) (d : ReqDict) (v : PyVal),
    ((set_cpu_reqs t (PyVal.pydict d)).2 = none ↔ dictOk d = true) ∧
    (dictOk d = true → (set_cpu_reqs t (PyVal.pydict d)).1.cpu_reqs = reqsOf d) ∧
    ((set_gpu_reqs t (PyVal.pydict d)).2 = none ↔ dictOk d = true) ∧
    (dictOk d = true → (set_gpu_reqs t (PyVal.pydict d)).1.gpu_reqs = reqsOf d) ∧
    (isDict v = false →
      set_cpu_reqs t v = (t, some EntkErr.typeErr) ∧
      set_gpu_reqs t v = (t, some EntkErr.typeErr)) := by
  intro t d v
  refine ⟨set_cpu_reqs_none_iff t d, ?_, set_gpu_reqs_none_iff t d, ?_, ?_⟩
  · intro h
    rw [set_cpu_reqs_ok t d h]
  · intro h
    rw [set_gpu_reqs_ok t d h]
  · intro h
    exact ⟨set_cpu_reqs_nondict t v h, set_gpu_reqs_nondict t v h⟩

/-- Claim C6 witness: a fully valid MPI/OpenMP request dict. -/
def dC6 : ReqDict :=
  ⟨some (RVal.rint 4), some (RVal.rstr "MPI"),
   some (RVal.rint 2), some (RVal.rstr "OpenMP"), false⟩

/-- Claim C6 witness: the valid dict dC6 is accepted and stored. -/
theorem c6_witness :
    (set_cpu_reqs (Task.init "task.w6") (PyVal.pydict dC6)).2 = none ∧
    (set_cpu_reqs (Task.init "task.w6") (PyVal.pydict dC6)).1.cpu_reqs = reqsOf dC6 :=
  ⟨(c6_reqs_validated (Task.init "task.w6") dC6 PyVal.pynone).1.mpr rfl,
   (c6_reqs_validated (Task.init "task.w6") dC6 PyVal.pynone).2.1 rfl⟩

/-- Claim C7 counterexample: assigning a new string through the public uid
setter succeeds and changes the uid of an already-constructed Task. -/
theorem c7_counterexample :
    (set_uid (Task.init "task.orig") (PyVal.pystr "task.changed")).2 = none ∧
    (set_uid (Task.init "task.orig") (PyVal.pystr "task.changed")).1.uid = "task.changed" ∧
    (Task.init "task.orig").uid = "task.orig" :=
  ⟨rfl, rfl, rfl⟩

/-- Claim C7 (amended): the uid is publicly mutable after construction: the
uid setter overwrites it with any assigned string, and only a non-string
assignment is rejected (TypeError), leaving the task unchanged. -/
theorem c7_uid_mutable : ∀ (t : Task) (s : String) (v : PyVal),
    (set_uid t (PyVal.pystr s)).2 = none ∧
    (set_uid t (PyVal.pystr s)).1.uid = s ∧
    (isStr v = false → set_uid t v = (t, some EntkErr.typeErr)) := by
  intro t s v
  refine ⟨rfl, rfl, ?_⟩
  intro h
  cases v <;> first | rfl | simp [isStr] at h

/-- Claim C7 witness: a None assignment to uid is rejected with TypeError
and changes nothing. -/
theorem c7_witness :
    set_uid (Task.init "task.w7") PyVal.pynone = (Task.init "task.w7", some EntkErr.typeErr) :=
  (c7_uid_mutable (Task.init "task.w7") "x" PyVal.pynone).2.2 rfl

/-- Claim C8 (modelled from the spec, the Task Manager class is not under
src): check_alive is false on a fresh manager, true after start_manager,
and false again after end_manager; in this sequential model the transition
is observable immediately. -/
theorem c8_manager_lifecycle : ∀ m : TaskManager,
    check_alive newTaskManager = false ∧
    check_alive (start_manager m) = true ∧
    check_alive (end_manager m) = false :=
  fun _ => ⟨rfl, rfl, rfl⟩

/-- Claim C9: the executable setter stores a string s as the singleton list
[s], stores a list unchanged, and rejects every other value with TypeError,
leaving the executable (and the whole task) unchanged. -/
theorem c9_executable_setter : ∀ (t : Task) (s : String) (l : List String) (v : PyVal),
    set_executable t (PyVal.pystr s) = ({ t with executable := [s] }, none) ∧
    set_executable t (PyVal.pylist l) = ({ t with executable := l }, none) ∧
    (isListOrStr v = false → set_executable t v = (t, some EntkErr.typeErr)) := by
  intro t s l v
  refine ⟨rfl, rfl, ?_⟩
  intro h
  cases v <;> first | rfl | simp [isListOrStr] at h

/-- Claim C9 witness: an int assignment to executable is rejected with
TypeError and changes nothing. -/
theorem c9_witness :
    set_executable (Task.init "task.w9") (PyVal.pyint 3)
      = (Task.init "task.w9", some EntkErr.typeErr) :=
  (c9_executable_setter (Task.init "task.w9") "x" [] (PyVal.pyint 3)).2.2 rfl

/-- Claim C10: a request dict over a subset of the four expected keys (with
valid present values) is accepted, and every absent key's stored field is
overwritten with None rather than preserved; MissingError is raised only
when the dict holds a key outside the four expected ones. -/
theorem c10_subset_overwrites : ∀ (t : Task) (d : ReqDict) (v w : PyVal),
    (dictOk d = true →
      (set_cpu_reqs t (PyVal.pydict d)).2 = none ∧
      (set_gpu_reqs t (PyVal.pydict d)).2 = none ∧
      (d.processes = none →
        (set_cpu_reqs t (PyVal.pydict d)).1.cpu_reqs.processes = RVal.rnone ∧
        (set_gpu_reqs t (PyVal.pydict d)).1.gpu_reqs.processes = RVal.rnone) ∧
      (d.process_type = none →
        (set_cpu_reqs t (PyVal.pydict d)).1.cpu_reqs.process_type = RVal.rnone ∧
        (set_gpu_reqs t (PyVal.pydict d)).1.gpu_reqs.process_type = RVal.rnone) ∧
      (d.threads_per_process = none →
        (set_cpu_reqs t (PyVal.pydict d)).1.cpu_reqs.threads_per_process = RVal.rnone ∧
        (set_gpu_reqs t (PyVal.pydict d)).1.gpu_reqs.threads_per_process = RVal.rnone) ∧
      (d.thread_type = none →
        (set_cpu_reqs t (PyVal.pydict d)).1.cpu_reqs.thread_type = RVal.rnone ∧
        (set_gpu_reqs t (PyVal.pydict d)).1.gpu_reqs.thread_type = RVal.rnone)) ∧
    ((set_cpu_reqs t v).2 = some EntkErr.missingErr →
      ∃ d2, v = PyVal.pydict d2 ∧ d2.hasExtraKey = true) ∧
    ((set_gpu_reqs t w).2 = some EntkErr.missingErr →
      ∃ d2, w = PyVal.pydict d2 ∧ d2.hasExtraKey = true) := by
  intro t d v w
  refine ⟨?_, fun h => (set_cpu_reqs_missing_iff t v).mp h,
          fun h => (set_gpu_reqs_missing_iff t w).mp h⟩
  intro h
  have hc := set_cpu_reqs_ok t d h
  have hg := set_gpu_reqs_ok t d h
  rw [hc, hg]
  refine ⟨rfl, rfl, ?_, ?_, ?_, ?_⟩ <;> intro hk <;> simp [reqsOf, rget, hk]

/-- Claim C10 witness: the one-key dict used to exercise the overwrite. -/
def dC10 : ReqDict := ⟨some (RVal.rint 2), none, none, none, false⟩

/-- Claim C10 witness: a dict holding only processes is accepted and the
absent thread_type field is overwritten with None. -/
theorem c10_witness :
    (set_cpu_reqs (Task.init "task.w10") (PyVal.pydict dC10)).2 = none ∧
    (set_cpu_reqs (Task.init "task.w10") (PyVal.pydict dC10)).1.cpu_reqs.thread_type = RVal.rnone :=
  ⟨((c10_subset_overwrites (Task.init "task.w10") dC10 PyVal.pynone PyVal.pynone).1 rfl).1,
   (((c10_subset_overwrites (Task.init "task.w10") dC10 PyVal.pynone PyVal.pynone).1 rfl).2.2.2.2.2 rfl).1⟩

end entk
